import Mathlib

set_option linter.unusedVariables false

/-!
Shallow embedding of the QKart cart/checkout service
(`src/services/cart.service.js`) and proofs of its specified properties.

The service reads and mutates one cart document per user, backed by a
document store keyed by user email.  A single service call performs one
read-modify-write cycle (find by email, mutate in memory, save), so each
operation is embedded as a pure function from the user's stored cart
document (`Option Cart`, the result of `Cart.findOne({email})`) to the pair
of the call's outcome (thrown error or returned cart) and the user's cart
document in the store after the call.  JavaScript numbers in this service
are used as exact integers (costs, quantities, wallet balances), embedded
as `Int`.
-/

namespace QKart

/-- Status code 404, `httpStatus.NOT_FOUND` in the source. -/
def NOT_FOUND : Nat := 404

/-- Status code 400, `httpStatus.BAD_REQUEST` in the source. -/
def BAD_REQUEST : Nat := 400

/-- Status code 500, `httpStatus.INTERNAL_SERVER_ERROR` in the source. -/
def INTERNAL_SERVER_ERROR : Nat := 500

/-- Application error carrying an HTTP-style status code and an optional
human-readable message, mirroring `new ApiError(status, message)`
(`new ApiError(httpStatus.INTERNAL_SERVER_ERROR)` carries no message). -/
structure ApiError where
  statusCode : Nat
  message : Option String
deriving Repr, DecidableEq

/-- Errors observable from `checkout`: a thrown `ApiError`, or a native
JavaScript error (the `TypeError` that `Array.prototype.reduce` raises on an
empty array when called with no initial value). -/
inductive JsError where
  | api (e : ApiError)
  | native (msg : String)
deriving Repr, DecidableEq

/-- Catalog product; only the identifier (`_id`, string-normalized by
`toString()`) and `cost` matter to the cart logic. -/
structure Product where
  id : String
  cost : Int
deriving Repr, DecidableEq

/-- One line of a cart: a snapshot of the product plus a quantity, as pushed
by `cartObj.cartItems.push({product: prodObj, quantity: quantity})`. -/
structure CartItem where
  product : Product
  quantity : Int
deriving Repr, DecidableEq

/-- Cart document: owner key and the ordered line items. -/
structure Cart where
  email : String
  cartItems : List CartItem
deriving Repr, DecidableEq

/-- User record as the service sees it.  `walletMoney` is read and
decremented by `checkout`.  The field `hasSetNonDefaultAddress` is the result
of `await user.hasSetNonDefaultAddress()`; the user model is outside the
service, so the flag is carried as a boolean input (per the spec, a derived
flag indicating whether a non-default shipping address has been set). -/
structure User where
  email : String
  walletMoney : Int
  hasSetNonDefaultAddress : Bool
deriving Repr, DecidableEq

/-- Catalog lookup `Product.findById(productId)`: the catalog entry whose id
equals the given id, if any. -/
def findById (catalog : List Product) (productId : String) : Option Product :=
  match catalog with
  | [] => none
  | p :: rest => if p.id = productId then some p else findById rest productId

/-- `getCartByUser`: fetch the user's cart (`Cart.findOne({email})`); throw
404 "User does not have a cart" when none exists.  No side effects. -/
def getCartByUser (store : Option Cart) : Except ApiError Cart :=
  match store with
  | none => Except.error ⟨NOT_FOUND, some "User does not have a cart"⟩
  | some cartObj => Except.ok cartObj

/-- `checkProductInCart`: linear scan setting a flag when some line item's
product id (`cartItems[i].product._id.toString()`) equals `productId`, with
early break on the first hit. -/
def checkProductInCart (cartItems : List CartItem) (productId : String) : Bool :=
  cartItems.any (fun item => item.product.id == productId)

/-- The cart `addProductToCart` works on: the user's existing cart, or the
fresh empty cart that `Cart.create({email: user.email})` makes (and persists)
when none exists. -/
def cartOrNew (store : Option Cart) (user : User) : Cart :=
  match store with
  | none => { email := user.email, cartItems := [] }
  | some cartObj => cartObj

/-- Body of `addProductToCart` once the cart has been fetched or created:
duplicate check, catalog check, then push and save.  The second component is
the user's cart document in the store after the call — on the error paths it
is the fetched-or-created cart itself, because `Cart.create` has already
persisted a fresh cart before either check runs. -/
def addProductToCartGo (catalog : List Product) (cartObj : Cart)
    (productId : String) (quantity : Int) :
    Except ApiError Cart × Option Cart :=
  if checkProductInCart cartObj.cartItems productId then
    (Except.error ⟨BAD_REQUEST,
       some "Product already in cart. Use the cart sidebar to update or remove product from cart"⟩,
     some cartObj)
  else
    match findById catalog productId with
    | none =>
        (Except.error ⟨BAD_REQUEST, some "Product doesn't exist in database"⟩,
         some cartObj)
    | some prodObj =>
        let updatedCart : Cart :=
          { cartObj with cartItems := cartObj.cartItems ++ [⟨prodObj, quantity⟩] }
        (Except.ok updatedCart, some updatedCart)

/-- `addProductToCart(user, productId, quantity)` over the stored cart. -/
def addProductToCart (catalog : List Product) (user : User) (productId : String)
    (quantity : Int) (store : Option Cart) :
    Except ApiError Cart × Option Cart :=
  addProductToCartGo catalog (cartOrNew store user) productId quantity

/-- The update loop of `updateProductInCart`: set the quantity of the first
line whose product id matches `productId`, then break. -/
def updateQuantity (productId : String) (quantity : Int) :
    List CartItem → List CartItem
  | [] => []
  | item :: rest =>
      if item.product.id == productId then
        { item with quantity := quantity } :: rest
      else
        item :: updateQuantity productId quantity rest

/-- `updateProductInCart(user, productId, quantity)` over the stored cart:
missing cart, then catalog check, then membership check, then in-place
quantity update and save. -/
def updateProductInCart (catalog : List Product) (user : User)
    (productId : String) (quantity : Int) (store : Option Cart) :
    Except ApiError Cart × Option Cart :=
  match store with
  | none =>
      (Except.error ⟨BAD_REQUEST,
         some "User does not have a cart. Use POST to create cart and add a product"⟩,
       none)
  | some cartObj =>
    match findById catalog productId with
    | none =>
        (Except.error ⟨BAD_REQUEST, some "Product doesn't exist in database"⟩,
         some cartObj)
    | some _ =>
      if checkProductInCart cartObj.cartItems productId then
        let updatedCart : Cart :=
          { cartObj with
            cartItems := updateQuantity productId quantity cartObj.cartItems }
        (Except.ok updatedCart, some updatedCart)
      else
        (Except.error ⟨BAD_REQUEST, some "Product not in cart"⟩, some cartObj)

/-- `deleteProductFromCart(user, productId)` over the stored cart: missing
cart, then membership check, then
`cartItems.filter((item) => item.product._id.toString() !== productId)`
and save. -/
def deleteProductFromCart (user : User) (productId : String)
    (store : Option Cart) :
    Except ApiError Cart × Option Cart :=
  match store with
  | none =>
      (Except.error ⟨BAD_REQUEST, some "User does not have a cart"⟩, none)
  | some cartObj =>
    if checkProductInCart cartObj.cartItems productId then
      let updatedCart : Cart :=
        { cartObj with
          cartItems :=
            cartObj.cartItems.filter (fun item => item.product.id != productId) }
      (Except.ok updatedCart, some updatedCart)
    else
      (Except.error ⟨BAD_REQUEST, some "Product not in cart"⟩, some cartObj)

/-- JavaScript `Array.prototype.reduce` called with no initial value: a
thrown `TypeError` (`none`) on the empty array, else a left fold whose
accumulator starts at the first element. -/
def reduceNoInit (f : Int → Int → Int) : List Int → Option Int
  | [] => none
  | x :: xs => some (xs.foldl f x)

/-- The cart total as `checkout` computes it:
`cartItems.map((item) => item.product.cost * item.quantity).reduce((prevValue, currValue) => prevValue + currValue)`. -/
def cartTotal (cartItems : List CartItem) : Option Int :=
  reduceNoInit (fun prevValue currValue => prevValue + currValue)
    (cartItems.map (fun item => item.product.cost * item.quantity))

/-- `checkout(user)` over the stored cart: fetch via `getCartByUser`, guard a
non-empty cart, compute the total, guard the wallet balance and the address
flag; on success clear the cart's items, decrement `walletMoney` by the
total, and save the cart and then the user.  The second component is the
state after the call: the user's cart document and the user record. -/
def checkout (user : User) (store : Option Cart) :
    Except JsError Unit × (Option Cart × User) :=
  match getCartByUser store with
  | Except.error e => (Except.error (JsError.api e), (store, user))
  | Except.ok cartObj =>
    if cartObj.cartItems.length = 0 then
      (Except.error (JsError.api ⟨BAD_REQUEST, some "No products in cart"⟩),
       (store, user))
    else
      match cartTotal cartObj.cartItems with
      | none =>
          (Except.error
             (JsError.native "Reduce of empty array with no initial value"),
           (store, user))
      | some total =>
        if user.walletMoney < total then
          (Except.error (JsError.api ⟨BAD_REQUEST, some "Insufficient Balance"⟩),
           (store, user))
        else if !user.hasSetNonDefaultAddress then
          (Except.error (JsError.api ⟨BAD_REQUEST, some "No address set"⟩),
           (store, user))
        else
          let emptiedCart : Cart := { cartObj with cartItems := [] }
          let chargedUser : User :=
            { user with walletMoney := user.walletMoney - total }
          (Except.ok (), (some emptiedCart, chargedUser))

/-- Cart invariants from the spec: line items' product ids are pairwise
distinct within a cart, and every line's quantity is at least 1. -/
def CartInv (c : Cart) : Prop :=
  (c.cartItems.map (fun item => item.product.id)).Nodup ∧
    ∀ item ∈ c.cartItems, 1 ≤ item.quantity

/-- The invariants on the user's stored cart document: trivially true when no
cart exists yet. -/
def StoreInv : Option Cart → Prop
  | none => True
  | some c => CartInv c

/-- Spec-side description of a quantity update: the line for `productId` gets
the new quantity, every other line is returned unchanged. -/
def setQuantity (productId : String) (quantity : Int) (item : CartItem) :
    CartItem :=
  if item.product.id = productId then { item with quantity := quantity }
  else item

/-- Concrete catalog product, cost 100 (checkout scenario A of the spec). -/
def prodA : Product := ⟨"pa", 100⟩

/-- Concrete catalog product, cost 50. -/
def prodB : Product := ⟨"pb", 50⟩

/-- Concrete user: wallet 500, non-default address set. -/
def userA : User := ⟨"a@qkart.com", 500, true⟩

/-- Concrete user: wallet 100, address left at its default. -/
def userB : User := ⟨"b@qkart.com", 100, false⟩

/-- Concrete cart holding 2 × `prodA` (total 200). -/
def cartA : Cart := ⟨"a@qkart.com", [⟨prodA, 2⟩]⟩

/-- Concrete cart holding 2 × `prodA` and 1 × `prodB`. -/
def cartAB : Cart := ⟨"a@qkart.com", [⟨prodA, 2⟩, ⟨prodB, 1⟩]⟩

/-- Concrete cart holding 2 × `prodB` (total 100). -/
def cartSmall : Cart := ⟨"b@qkart.com", [⟨prodB, 2⟩]⟩

/-- The catalog entry `findById` returns carries the looked-up id. -/
theorem findById_id (catalog : List Product) (productId : String)
    (prodObj : Product) (h : findById catalog productId = some prodObj) :
    prodObj.id = productId := by
  induction catalog with
  | nil => simp [findById] at h
  | cons p rest ih =>
    rw [findById] at h
    split at h
    · injection h with h2
      subst h2
      assumption
    · exact ih h

/-- The membership scan succeeds exactly when some line matches. -/
theorem checkProductInCart_true_iff (cartItems : List CartItem)
    (productId : String) :
    checkProductInCart cartItems productId = true ↔
      ∃ item ∈ cartItems, item.product.id = productId := by
  simp [checkProductInCart]

/-- The membership scan fails exactly when no line matches. -/
theorem checkProductInCart_false_iff (cartItems : List CartItem)
    (productId : String) :
    checkProductInCart cartItems productId = false ↔
      ∀ item ∈ cartItems, item.product.id ≠ productId := by
  simp [checkProductInCart]

/-- C8: the shared membership helper used by add, update, and delete reports
a product as in the cart if and only if some line item's product id, compared
as a string-normalized identifier, equals the given productId. -/
theorem checkProductInCart_spec (cartItems : List CartItem)
    (productId : String) :
    checkProductInCart cartItems productId = true ↔
      ∃ item ∈ cartItems, item.product.id = productId := by
  simp [checkProductInCart]

/-- C4: adding a product whose id is already on some line fails with 400
"Product already in cart..." and leaves the stored cart unchanged; in
particular no line's quantity is touched. -/
theorem addProductToCart_duplicate_fails (catalog : List Product) (user : User)
    (productId : String) (quantity : Int) (cartObj : Cart)
    (hin : checkProductInCart cartObj.cartItems productId = true) :
    addProductToCart catalog user productId quantity (some cartObj) =
      (Except.error ⟨BAD_REQUEST,
         some "Product already in cart. Use the cart sidebar to update or remove product from cart"⟩,
       some cartObj) := by
  simp [addProductToCart, addProductToCartGo, cartOrNew, hin]

/-- Closed instance of `addProductToCart_duplicate_fails` on concrete data. -/
theorem addProductToCart_duplicate_fails_witness :
    addProductToCart [prodA, prodB] userA "pa" 3 (some cartA) =
      (Except.error ⟨BAD_REQUEST,
         some "Product already in cart. Use the cart sidebar to update or remove product from cart"⟩,
       some cartA) :=
  addProductToCart_duplicate_fails [prodA, prodB] userA "pa" 3 cartA (by decide)

/-- C3 counterexample: for a user with no pre-existing cart and a productId
absent from the catalog, the call fails as claimed, but it does mutate the
cart store: afterwards the user owns a newly created (empty, persisted)
cart, so the stored cart document is no longer absent. -/
theorem addProductToCart_unknown_no_mutation_cex :
    (addProductToCart [prodA] userB "p-missing" 1 none).1 =
        Except.error ⟨BAD_REQUEST, some "Product doesn't exist in database"⟩ ∧
      (addProductToCart [prodA] userB "p-missing" 1 none).2 ≠ none := by
  constructor
  · rfl
  · decide

/-- C3 amended: for every productId absent from the catalog (and not already
on a line of the user's existing cart), addProductToCart fails with 400
"Product doesn't exist in database" and leaves the cart's line items exactly
as fetched or created — but when the user had no cart, an empty cart has been
created and persisted before the failure, so the stored document changes from
absent to an empty cart. -/
theorem addProductToCart_unknown_product (catalog : List Product) (user : User)
    (productId : String) (quantity : Int) (store : Option Cart)
    (hfind : findById catalog productId = none)
    (hnotin : checkProductInCart (cartOrNew store user).cartItems productId
      = false) :
    addProductToCart catalog user productId quantity store =
      (Except.error ⟨BAD_REQUEST, some "Product doesn't exist in database"⟩,
       some (cartOrNew store user)) := by
  simp [addProductToCart, addProductToCartGo, hnotin, hfind]

/-- Closed instance of `addProductToCart_unknown_product` on concrete data. -/
theorem addProductToCart_unknown_product_witness :
    addProductToCart [prodA] userA "p-missing" 1 (some cartA) =
      (Except.error ⟨BAD_REQUEST, some "Product doesn't exist in database"⟩,
       some (cartOrNew (some cartA) userA)) :=
  addProductToCart_unknown_product [prodA] userA "p-missing" 1 (some cartA)
    (by decide) (by decide)

/-- C5: adding a catalog product not yet in the cart succeeds — creating an
empty cart first when none exists — and the resulting cart is the fetched or
created cart with exactly one new line appended, holding the product snapshot
and the given quantity, all pre-existing lines unchanged; the result is
persisted. -/
theorem addProductToCart_success_appends (catalog : List Product) (user : User)
    (productId : String) (quantity : Int) (store : Option Cart)
    (prodObj : Product)
    (hfind : findById catalog productId = some prodObj)
    (hnotin : checkProductInCart (cartOrNew store user).cartItems productId
      = false) :
    addProductToCart catalog user productId quantity store =
      (Except.ok { cartOrNew store user with
          cartItems := (cartOrNew store user).cartItems ++ [⟨prodObj, quantity⟩] },
       some { cartOrNew store user with
          cartItems := (cartOrNew store user).cartItems ++ [⟨prodObj, quantity⟩] }) := by
  simp [addProductToCart, addProductToCartGo, hnotin, hfind]

/-- Closed instance of `addProductToCart_success_appends`: adding `prodB` to
a cart that only holds `prodA`, and to a user with no cart at all. -/
theorem addProductToCart_success_appends_witness :
    addProductToCart [prodA, prodB] userA "pb" 4 (some cartA) =
      (Except.ok { cartOrNew (some cartA) userA with
          cartItems := (cartOrNew (some cartA) userA).cartItems ++ [⟨prodB, 4⟩] },
       some { cartOrNew (some cartA) userA with
          cartItems := (cartOrNew (some cartA) userA).cartItems ++ [⟨prodB, 4⟩] }) :=
  addProductToCart_success_appends [prodA, prodB] userA "pb" 4 (some cartA)
    prodB (by decide) (by decide)

/-- Branch equation: checkout with no stored cart throws 404. -/
theorem checkout_none (user : User) :
    checkout user none =
      (Except.error (JsError.api ⟨NOT_FOUND, some "User does not have a cart"⟩),
       (none, user)) := rfl

/-- Branch equation: checkout on an empty cart throws "No products in cart". -/
theorem checkout_empty_cart (user : User) (cartObj : Cart)
    (h : cartObj.cartItems = []) :
    checkout user (some cartObj) =
      (Except.error (JsError.api ⟨BAD_REQUEST, some "No products in cart"⟩),
       (some cartObj, user)) := by
  simp [checkout, getCartByUser, h]

/-- On a non-empty item list the no-initial-value reduce returns a value. -/
theorem cartTotal_ne_none (cartItems : List CartItem) (hne : cartItems ≠ []) :
    ∃ t, cartTotal cartItems = some t := by
  match cartItems with
  | [] => exact absurd rfl hne
  | item :: rest => exact ⟨_, rfl⟩

/-- Branch equation: wallet short of the total throws "Insufficient Balance". -/
theorem checkout_insufficient_balance (user : User) (cartObj : Cart)
    (total : Int) (hne : cartObj.cartItems ≠ [])
    (htot : cartTotal cartObj.cartItems = some total)
    (hlt : user.walletMoney < total) :
    checkout user (some cartObj) =
      (Except.error (JsError.api ⟨BAD_REQUEST, some "Insufficient Balance"⟩),
       (some cartObj, user)) := by
  simp [checkout, getCartByUser, List.length_eq_zero, hne, htot, hlt]

/-- Branch equation: a default address, checked after the balance, throws
"No address set". -/
theorem checkout_address_unset (user : User) (cartObj : Cart) (total : Int)
    (hne : cartObj.cartItems ≠ [])
    (htot : cartTotal cartObj.cartItems = some total)
    (hge : ¬ user.walletMoney < total)
    (haddr : user.hasSetNonDefaultAddress = false) :
    checkout user (some cartObj) =
      (Except.error (JsError.api ⟨BAD_REQUEST, some "No address set"⟩),
       (some cartObj, user)) := by
  simp [checkout, getCartByUser, List.length_eq_zero, hne, htot, hge, haddr]

/-- Branch equation: all guards pass, the cart is emptied and the wallet
decremented, both persisted. -/
theorem checkout_ok_eq (user : User) (cartObj : Cart) (total : Int)
    (hne : cartObj.cartItems ≠ [])
    (htot : cartTotal cartObj.cartItems = some total)
    (hge : ¬ user.walletMoney < total)
    (haddr : user.hasSetNonDefaultAddress = true) :
    checkout user (some cartObj) =
      (Except.ok (),
       (some { cartObj with cartItems := [] },
        { user with walletMoney := user.walletMoney - total })) := by
  simp [checkout, getCartByUser, List.length_eq_zero, hne, htot, hge, haddr]

/-- C1: for every user whose cart exists and is non-empty, whose walletMoney
covers the cart total (sum over lines of cost × quantity), and who has a
non-default address set, checkout succeeds, empties the cart's item list,
and decrements walletMoney by exactly the total, persisting the cart and the
user record. -/
theorem checkout_success (user : User) (cartObj : Cart) (total : Int)
    (hne : cartObj.cartItems ≠ [])
    (htot : cartTotal cartObj.cartItems = some total)
    (hbal : total ≤ user.walletMoney)
    (haddr : user.hasSetNonDefaultAddress = true) :
    checkout user (some cartObj) =
      (Except.ok (),
       (some { cartObj with cartItems := [] },
        { user with walletMoney := user.walletMoney - total })) :=
  checkout_ok_eq user cartObj total hne htot (not_lt.mpr hbal) haddr

/-- Closed instance of `checkout_success`: scenario A — one line of cost 100
and quantity 2, wallet 500, address set; the total is 200, the cart empties,
the wallet drops to 300. -/
theorem checkout_success_witness :
    checkout userA (some cartA) =
      (Except.ok (),
       (some { cartA with cartItems := [] },
        { userA with walletMoney := userA.walletMoney - 200 })) :=
  checkout_success userA cartA 200 (by decide) (by decide) (by decide)
    (by decide)

/-- C2: checkout evaluates its preconditions in a fixed order — cart
existence (404), non-empty cart ("No products in cart"), sufficient balance
("Insufficient Balance"), address set ("No address set", reached only when
the balance check passes) — and each failure raises its error with no
mutation to the stored cart or to the user's wallet. -/
theorem checkout_precondition_chain (user : User) :
    (checkout user none =
      (Except.error (JsError.api ⟨NOT_FOUND, some "User does not have a cart"⟩),
       (none, user))) ∧
    (∀ cartObj : Cart, cartObj.cartItems = [] →
      checkout user (some cartObj) =
        (Except.error (JsError.api ⟨BAD_REQUEST, some "No products in cart"⟩),
         (some cartObj, user))) ∧
    (∀ (cartObj : Cart) (total : Int), cartObj.cartItems ≠ [] →
      cartTotal cartObj.cartItems = some total →
      user.walletMoney < total →
      checkout user (some cartObj) =
        (Except.error (JsError.api ⟨BAD_REQUEST, some "Insufficient Balance"⟩),
         (some cartObj, user))) ∧
    (∀ (cartObj : Cart) (total : Int), cartObj.cartItems ≠ [] →
      cartTotal cartObj.cartItems = some total →
      ¬ user.walletMoney < total →
      user.hasSetNonDefaultAddress = false →
      checkout user (some cartObj) =
        (Except.error (JsError.api ⟨BAD_REQUEST, some "No address set"⟩),
         (some cartObj, user))) :=
  ⟨checkout_none user,
   fun cartObj h => checkout_empty_cart user cartObj h,
   fun cartObj total hne htot hlt =>
     checkout_insufficient_balance user cartObj total hne htot hlt,
   fun cartObj total hne htot hge haddr =>
     checkout_address_unset user cartObj total hne htot hge haddr⟩

/-- Closed instance of `checkout_precondition_chain`: each failing branch on
concrete data for a wallet-100, default-address user. -/
theorem checkout_precondition_chain_witness :
    (checkout userB none =
      (Except.error (JsError.api ⟨NOT_FOUND, some "User does not have a cart"⟩),
       (none, userB))) ∧
    (checkout userB (some ⟨"b@qkart.com", []⟩) =
      (Except.error (JsError.api ⟨BAD_REQUEST, some "No products in cart"⟩),
       (some ⟨"b@qkart.com", []⟩, userB))) ∧
    (checkout userB (some cartA) =
      (Except.error (JsError.api ⟨BAD_REQUEST, some "Insufficient Balance"⟩),
       (some cartA, userB))) ∧
    (checkout userB (some cartSmall) =
      (Except.error (JsError.api ⟨BAD_REQUEST, some "No address set"⟩),
       (some cartSmall, userB))) :=
  ⟨(checkout_precondition_chain userB).1,
   (checkout_precondition_chain userB).2.1 ⟨"b@qkart.com", []⟩ rfl,
   (checkout_precondition_chain userB).2.2.1 cartA 200 (by decide) (by decide)
     (by decide),
   (checkout_precondition_chain userB).2.2.2 cartSmall 100 (by decide)
     (by decide) (by decide) (by decide)⟩

/-- C10: the cart total is computed by a reduce with no initial accumulator,
which fails (throws) on an empty list; under checkout's preceding non-empty
guard the total computation always succeeds, so checkout can never surface
the native reduce error. -/
theorem checkout_total_reduce_safe :
    cartTotal [] = none ∧
    (∀ cartItems : List CartItem, cartItems ≠ [] →
      ∃ t, cartTotal cartItems = some t) ∧
    (∀ (user : User) (store : Option Cart) (msg : String),
      (checkout user store).1 ≠ Except.error (JsError.native msg)) := by
  refine ⟨rfl, fun cartItems hne => cartTotal_ne_none cartItems hne, ?_⟩
  intro user store msg
  cases store with
  | none => simp [checkout, getCartByUser]
  | some cartObj =>
    by_cases hne : cartObj.cartItems = []
    · simp [checkout, getCartByUser, hne]
    · obtain ⟨t, ht⟩ := cartTotal_ne_none cartObj.cartItems hne
      by_cases hlt : user.walletMoney < t
      · simp [checkout, getCartByUser, List.length_eq_zero, hne, ht, hlt]
      · by_cases haddr : user.hasSetNonDefaultAddress
        · simp [checkout, getCartByUser, List.length_eq_zero, hne, ht, hlt,
            haddr]
        · simp [checkout, getCartByUser, List.length_eq_zero, hne, ht, hlt,
            haddr]

/-- Closed instance of `checkout_total_reduce_safe` on concrete data. -/
theorem checkout_total_reduce_safe_witness :
    (∃ t, cartTotal [⟨prodA, 2⟩] = some t) ∧
      (checkout userA (some cartA)).1 ≠
        Except.error
          (JsError.native "Reduce of empty array with no initial value") :=
  ⟨checkout_total_reduce_safe.2.1 [⟨prodA, 2⟩] (by decide),
   checkout_total_reduce_safe.2.2 userA (some cartA)
     "Reduce of empty array with no initial value"⟩

/-- `setQuantity` does not touch the product snapshot. -/
theorem setQuantity_product (productId : String) (quantity : Int)
    (item : CartItem) :
    (setQuantity productId quantity item).product = item.product := by
  by_cases h : item.product.id = productId <;> simp [setQuantity, h]

/-- `setQuantity` applied twice is `setQuantity` applied once. -/
theorem setQuantity_idem (productId : String) (quantity : Int)
    (item : CartItem) :
    setQuantity productId quantity (setQuantity productId quantity item) =
      setQuantity productId quantity item := by
  by_cases h : item.product.id = productId <;> simp [setQuantity, h]

/-- Mapping `setQuantity` over lines none of which match is the identity. -/
theorem map_setQuantity_not_mem (productId : String) (quantity : Int)
    (cartItems : List CartItem)
    (h : ∀ item ∈ cartItems, item.product.id ≠ productId) :
    cartItems.map (setQuantity productId quantity) = cartItems := by
  induction cartItems with
  | nil => rfl
  | cons item rest ih =>
    have h1 : item.product.id ≠ productId := h item (List.mem_cons_self _ _)
    simp only [List.map_cons, setQuantity, if_neg h1]
    rw [ih (fun i hi => h i (List.mem_cons_of_mem _ hi))]

/-- When the cart's product ids are pairwise distinct, the first-match update
loop coincides with pointwise replacement: the matching line gets the new
quantity, every other line is returned unchanged. -/
theorem updateQuantity_eq_map (productId : String) (quantity : Int)
    (cartItems : List CartItem)
    (hnodup : (cartItems.map (fun item => item.product.id)).Nodup) :
    updateQuantity productId quantity cartItems =
      cartItems.map (setQuantity productId quantity) := by
  induction cartItems with
  | nil => rfl
  | cons item rest ih =>
    rw [List.map_cons, List.nodup_cons] at hnodup
    obtain ⟨hnotin, hrest⟩ := hnodup
    by_cases h : item.product.id = productId
    · have hrestne : ∀ it ∈ rest, it.product.id ≠ productId := by
        intro it hit heq
        apply hnotin
        rw [h, ← heq]
        exact List.mem_map_of_mem _ hit
      rw [updateQuantity, List.map_cons, if_pos (by simp [h]),
          map_setQuantity_not_mem productId quantity rest hrestne]
      simp [setQuantity, h]
    · rw [updateQuantity, List.map_cons, if_neg (by simp [h]), ih hrest]
      simp [setQuantity, h]

/-- Pointwise replacement leaves the sequence of product ids unchanged. -/
theorem map_setQuantity_ids (productId : String) (quantity : Int)
    (cartItems : List CartItem) :
    (cartItems.map (setQuantity productId quantity)).map
        (fun item => item.product.id) =
      cartItems.map (fun item => item.product.id) := by
  simp [List.map_map, Function.comp, setQuantity_product]

/-- Pointwise replacement leaves cart membership unchanged. -/
theorem checkProductInCart_map_setQuantity (productId : String)
    (quantity : Int) (cartItems : List CartItem) :
    checkProductInCart (cartItems.map (setQuantity productId quantity))
        productId =
      checkProductInCart cartItems productId := by
  simp only [checkProductInCart, List.any_map]
  congr 1
  funext item
  simp [Function.comp, setQuantity_product]

/-- Pointwise replacement is idempotent. -/
theorem map_setQuantity_idem (productId : String) (quantity : Int)
    (cartItems : List CartItem) :
    (cartItems.map (setQuantity productId quantity)).map
        (setQuantity productId quantity) =
      cartItems.map (setQuantity productId quantity) := by
  simp only [List.map_map, Function.comp]
  apply List.map_congr_left
  intro item hmem
  exact setQuantity_idem productId quantity item

/-- C6: on a cart holding a line for a catalog productId (ids pairwise
distinct per the cart invariant), updateProductInCart succeeds and replaces
exactly that line's quantity with the given value, leaving every other line
unchanged; and it is idempotent — running it again with the same productId
and quantity returns and persists the very same cart state. -/
theorem updateProductInCart_replaces_idempotent (catalog : List Product)
    (user : User) (productId : String) (quantity : Int) (cartObj : Cart)
    (prodObj : Product)
    (hfind : findById catalog productId = some prodObj)
    (hin : checkProductInCart cartObj.cartItems productId = true)
    (hnodup : (cartObj.cartItems.map (fun item => item.product.id)).Nodup) :
    updateProductInCart catalog user productId quantity (some cartObj) =
      (Except.ok { cartObj with
          cartItems := cartObj.cartItems.map (setQuantity productId quantity) },
       some { cartObj with
          cartItems := cartObj.cartItems.map (setQuantity productId quantity) }) ∧
    updateProductInCart catalog user productId quantity
        (some { cartObj with
          cartItems := cartObj.cartItems.map (setQuantity productId quantity) }) =
      (Except.ok { cartObj with
          cartItems := cartObj.cartItems.map (setQuantity productId quantity) },
       some { cartObj with
          cartItems := cartObj.cartItems.map (setQuantity productId quantity) }) := by
  constructor
  · simp [updateProductInCart, hfind, hin,
      updateQuantity_eq_map productId quantity _ hnodup]
  · have hin2 : checkProductInCart
        (cartObj.cartItems.map (setQuantity productId quantity)) productId
        = true := by
      rw [checkProductInCart_map_setQuantity]
      exact hin
    have hnodup2 : ((cartObj.cartItems.map
        (setQuantity productId quantity)).map
          (fun item => item.product.id)).Nodup := by
      rw [map_setQuantity_ids]
      exact hnodup
    simp [updateProductInCart, hfind, hin2,
      updateQuantity_eq_map productId quantity _ hnodup2,
      map_setQuantity_idem]
    intro item hmem
    exact setQuantity_idem productId quantity item

/-- Closed instance of `updateProductInCart_replaces_idempotent`: setting the
quantity of `prodB` to 5 in a two-line cart, twice. -/
theorem updateProductInCart_replaces_idempotent_witness :
    updateProductInCart [prodA, prodB] userA "pb" 5 (some cartAB) =
      (Except.ok { cartAB with
          cartItems := cartAB.cartItems.map (setQuantity "pb" 5) },
       some { cartAB with
          cartItems := cartAB.cartItems.map (setQuantity "pb" 5) }) ∧
    updateProductInCart [prodA, prodB] userA "pb" 5
        (some { cartAB with
          cartItems := cartAB.cartItems.map (setQuantity "pb" 5) }) =
      (Except.ok { cartAB with
          cartItems := cartAB.cartItems.map (setQuantity "pb" 5) },
       some { cartAB with
          cartItems := cartAB.cartItems.map (setQuantity "pb" 5) }) :=
  updateProductInCart_replaces_idempotent [prodA, prodB] userA "pb" 5 cartAB
    prodB (by decide) (by decide) (by decide)

/-- Filtering on a different id keeps every non-matching line and drops the
single matching line. -/
theorem filter_remove_target (productId : String) (l1 l2 : List CartItem)
    (target : CartItem) (htarget : target.product.id = productId)
    (h1 : ∀ item ∈ l1, item.product.id ≠ productId)
    (h2 : ∀ item ∈ l2, item.product.id ≠ productId) :
    (l1 ++ target :: l2).filter (fun item => item.product.id != productId) =
      l1 ++ l2 := by
  have e1 : l1.filter (fun item => item.product.id != productId) = l1 :=
    List.filter_eq_self.mpr (fun item hi => by simp [h1 item hi])
  have e2 : l2.filter (fun item => item.product.id != productId) = l2 :=
    List.filter_eq_self.mpr (fun item hi => by simp [h2 item hi])
  rw [List.filter_append, e1, List.filter_cons, if_neg (by simp [htarget]), e2]

/-- C7: deleteProductFromCart with a productId on some line removes exactly
the targeted line, leaving all other lines untouched, and persists the
result; with a productId on no line it fails with 400 "Product not in cart";
with no cart it fails with 400 "User does not have a cart"; in both failure
cases the stored cart is unchanged. -/
theorem deleteProductFromCart_spec (user : User) (productId : String) :
    (deleteProductFromCart user productId none =
      (Except.error ⟨BAD_REQUEST, some "User does not have a cart"⟩, none)) ∧
    (∀ cartObj : Cart,
      checkProductInCart cartObj.cartItems productId = false →
      deleteProductFromCart user productId (some cartObj) =
        (Except.error ⟨BAD_REQUEST, some "Product not in cart"⟩,
         some cartObj)) ∧
    (∀ (cartObj : Cart) (l1 l2 : List CartItem) (target : CartItem),
      cartObj.cartItems = l1 ++ target :: l2 →
      target.product.id = productId →
      (∀ item ∈ l1, item.product.id ≠ productId) →
      (∀ item ∈ l2, item.product.id ≠ productId) →
      deleteProductFromCart user productId (some cartObj) =
        (Except.ok { cartObj with cartItems := l1 ++ l2 },
         some { cartObj with cartItems := l1 ++ l2 })) := by
  refine ⟨rfl, ?_, ?_⟩
  · intro cartObj hnotin
    simp [deleteProductFromCart, hnotin]
  · intro cartObj l1 l2 target hitems htarget h1 h2
    have hin : checkProductInCart cartObj.cartItems productId = true := by
      rw [checkProductInCart_true_iff]
      refine ⟨target, ?_, htarget⟩
      rw [hitems]
      exact List.mem_append_right _ (List.mem_cons_self _ _)
    rw [hitems] at hin
    simp [deleteProductFromCart, hin, hitems,
      filter_remove_target productId l1 l2 target htarget h1 h2]

/-- Closed instance of `deleteProductFromCart_spec`: the missing-cart branch,
the missing-line branch, and removal of the first of two lines. -/
theorem deleteProductFromCart_spec_witness :
    (deleteProductFromCart userA "pa" none =
      (Except.error ⟨BAD_REQUEST, some "User does not have a cart"⟩, none)) ∧
    (deleteProductFromCart userA "p-missing" (some cartAB) =
      (Except.error ⟨BAD_REQUEST, some "Product not in cart"⟩,
       some cartAB)) ∧
    (deleteProductFromCart userA "pa" (some cartAB) =
      (Except.ok { cartAB with cartItems := [] ++ [⟨prodB, 1⟩] },
       some { cartAB with cartItems := [] ++ [⟨prodB, 1⟩] })) :=
  ⟨(deleteProductFromCart_spec userA "pa").1,
   (deleteProductFromCart_spec userA "p-missing").2.1 cartAB (by decide),
   (deleteProductFromCart_spec userA "pa").2.2 cartAB [] [⟨prodB, 1⟩]
     ⟨prodA, 2⟩ (by decide) (by decide) (by decide) (by decide)⟩

/-- Appending a fresh element keeps a list duplicate-free. -/
theorem nodup_append_singleton {α : Type} (l : List α) (a : α)
    (hl : l.Nodup) (ha : a ∉ l) : (l ++ [a]).Nodup := by
  simp [List.nodup_append, hl, ha]

/-- Pointwise replacement keeps every quantity at least 1 when the new
quantity is. -/
theorem quantities_map_setQuantity (productId : String) (quantity : Int)
    (cartItems : List CartItem)
    (hq : ∀ item ∈ cartItems, 1 ≤ item.quantity) (hq1 : 1 ≤ quantity) :
    ∀ item ∈ cartItems.map (setQuantity productId quantity),
      1 ≤ item.quantity := by
  intro item2 h
  obtain ⟨item, hmem, rfl⟩ := List.mem_map.mp h
  by_cases hc : item.product.id = productId
  · simp [setQuantity, hc, hq1]
  · simp only [setQuantity, if_neg hc]
    exact hq item hmem

/-- C9: every CartService operation preserves the cart invariants — within
each stored cart the line items' product ids stay pairwise distinct and
every line's quantity stays at least 1 — for any call whose supplied
quantity respects the data model's positive-integer constraint. -/
theorem cartService_preserves_invariants (catalog : List Product) (user : User)
    (productId : String) (quantity : Int) (hq : 1 ≤ quantity) :
    (∀ store : Option Cart, StoreInv store →
      StoreInv (addProductToCart catalog user productId quantity store).2) ∧
    (∀ store : Option Cart, StoreInv store →
      StoreInv (updateProductInCart catalog user productId quantity store).2) ∧
    (∀ store : Option Cart, StoreInv store →
      StoreInv (deleteProductFromCart user productId store).2) ∧
    (∀ store : Option Cart, StoreInv store →
      StoreInv (checkout user store).2.1) := by
  refine ⟨?_, ?_, ?_, ?_⟩
  · -- addProductToCart
    intro store hstore
    have hc : CartInv (cartOrNew store user) := by
      cases store with
      | none =>
        exact ⟨List.nodup_nil, fun item h => absurd h (List.not_mem_nil item)⟩
      | some c0 => exact hstore
    unfold addProductToCart addProductToCartGo
    cases hin : checkProductInCart (cartOrNew store user).cartItems productId
      with
    | true =>
      simp [hin]
      exact hc
    | false =>
      cases hfind : findById catalog productId with
      | none =>
        simp [hin, hfind]
        exact hc
      | some prodObj =>
        simp [hin, hfind]
        show CartInv _
        constructor
        · have hpid : prodObj.id = productId := findById_id _ _ _ hfind
          have hnotin : productId ∉
              (cartOrNew store user).cartItems.map
                (fun item => item.product.id) := by
            intro hmem
            obtain ⟨item, hmem2, heq⟩ := List.mem_map.mp hmem
            exact (checkProductInCart_false_iff _ _).mp hin item hmem2 heq
          simp only [List.map_append, List.map_cons, List.map_nil, hpid]
          exact nodup_append_singleton _ _ hc.1 hnotin
        · intro item hmem
          rcases List.mem_append.mp hmem with h | h
          · exact hc.2 item h
          · simp at h
            subst h
            exact hq
  · -- updateProductInCart
    intro store hstore
    cases store with
    | none => simp [updateProductInCart, StoreInv]
    | some cartObj =>
      have hc : CartInv cartObj := hstore
      cases hfind : findById catalog productId with
      | none =>
        simp [updateProductInCart, hfind]
        exact hc
      | some prodObj =>
        cases hin : checkProductInCart cartObj.cartItems productId with
        | false =>
          simp [updateProductInCart, hfind, hin]
          exact hc
        | true =>
          simp [updateProductInCart, hfind, hin,
            updateQuantity_eq_map productId quantity _ hc.1]
          show CartInv _
          constructor
          · show ((cartObj.cartItems.map
                (setQuantity productId quantity)).map
                  (fun item => item.product.id)).Nodup
            rw [map_setQuantity_ids]
            exact hc.1
          · exact quantities_map_setQuantity _ _ _ hc.2 hq
  · -- deleteProductFromCart
    intro store hstore
    cases store with
    | none => simp [deleteProductFromCart, StoreInv]
    | some cartObj =>
      have hc : CartInv cartObj := hstore
      cases hin : checkProductInCart cartObj.cartItems productId with
      | false =>
        simp [deleteProductFromCart, hin]
        exact hc
      | true =>
        simp [deleteProductFromCart, hin]
        show CartInv _
        constructor
        · show ((cartObj.cartItems.filter
              (fun item => item.product.id != productId)).map
                (fun item => item.product.id)).Nodup
          exact List.Nodup.sublist
            ((List.filter_sublist _).map (fun item : CartItem => item.product.id))
            hc.1
        · intro item hmem
          exact hc.2 item (List.mem_of_mem_filter hmem)
  · -- checkout
    intro store hstore
    cases store with
    | none => simp [checkout, getCartByUser, StoreInv]
    | some cartObj =>
      by_cases hne : cartObj.cartItems = []
      · simp [checkout, getCartByUser, hne]
        exact hstore
      · obtain ⟨t, ht⟩ := cartTotal_ne_none cartObj.cartItems hne
        by_cases hlt : user.walletMoney < t
        · simp [checkout, getCartByUser, List.length_eq_zero, hne, ht, hlt]
          exact hstore
        · by_cases haddr : user.hasSetNonDefaultAddress
          · simp [checkout, getCartByUser, List.length_eq_zero, hne, ht, hlt,
              haddr, StoreInv, CartInv]
          · simp [checkout, getCartByUser, List.length_eq_zero, hne, ht, hlt,
              haddr]
            exact hstore

/-- Closed instance of `cartService_preserves_invariants` on a concrete cart
satisfying the invariants. -/
theorem cartService_preserves_invariants_witness :
    StoreInv (addProductToCart [prodA, prodB] userA "pb" 4 (some cartA)).2 ∧
    StoreInv (updateProductInCart [prodA, prodB] userA "pa" 4 (some cartA)).2 ∧
    StoreInv (deleteProductFromCart userA "pa" (some cartA)).2 ∧
    StoreInv (checkout userA (some cartA)).2.1 := by
  have hstore : StoreInv (some cartA) := ⟨by decide, by decide⟩
  have h1 := cartService_preserves_invariants [prodA, prodB] userA "pb" 4
    (by decide)
  have h2 := cartService_preserves_invariants [prodA, prodB] userA "pa" 4
    (by decide)
  exact ⟨h1.1 (some cartA) hstore, h2.2.1 (some cartA) hstore,
    h2.2.2.1 (some cartA) hstore, h2.2.2.2 (some cartA) hstore⟩

end QKart
